import Mathlib

/-!
Shallow embedding of the connection admission controller of `src/app.py`
(class `ConnectionManager`), together with proofs about its behaviour.

Modelling decisions, each taken from the source:

* `self.connections : Dict[str, Connection]` is an association list with
  unique keys; insertion overwrites an existing key or appends, deletion
  filters the key out, `len` is the list length.
* `self.connection_queue = queue.Queue()` is created with no `maxsize`, so
  it is unbounded: `put` always succeeds immediately (never blocks, never
  raises `queue.Full`) and the `timeout=` argument it receives is ignored.
  The queue is FIFO: `put` appends at the tail, `get_nowait` removes the
  head and raises `queue.Empty` only when the queue is empty.
* `str(uuid.uuid4())` is nondeterministic; the generated id is passed to
  the embedded operation as an explicit argument. Likewise `time.time()`
  is passed as an explicit `now` argument, and the Flask `request` data
  read inside `start_connection` is passed as a `ReqInfo` argument.
* Python floats are modelled as rationals. Python `/` on the metrics is
  rational division; in Python it would raise `ZeroDivisionError` when
  `total_requests == 0`, a state in which the division in `end_connection`
  is unreachable (the registry is then empty), while the Lean model yields
  `0` there.
* `self.lock` is `threading.Lock()`, which is NOT re-entrant.  When
  `end_connection` (holding the lock) dequeues a waiter it calls
  `self.start_connection(queued_conn_id)` — the dequeued token passed in
  the `timeout` parameter position — and that nested call blocks forever
  at `with self.lock:` before touching any shared state.  The embedding of
  `end_connection` therefore returns, besides the final shared state, an
  `Option String`: `none` means the call returned normally, `some t` means
  it invoked the nested `start_connection` with argument `t` and never
  returns (the shared state is frozen as mutated up to that point).
-/

/-- Client request metadata read from the Flask `request` object inside
`ConnectionManager.start_connection` (src/app.py lines 63-69). -/
structure ReqInfo where
  client_ip : String
  endpoint : String
  method : String
  user_agent : String
  request_id : String
  headers : List (String × String)
deriving DecidableEq

/-- The `Connection` dataclass (src/app.py lines 16-26). -/
structure Connection where
  id : String
  client_ip : String
  start_time : ℚ
  endpoint : String
  method : String
  user_agent : String
  request_id : String
  headers : List (String × String)
  rate_limit_remaining : Int
deriving DecidableEq

/-- The `self.metrics` dictionary (src/app.py lines 36-44). -/
structure Metrics where
  total_requests : Int
  active_connections : Int
  queued_connections : Int
  rejected_connections : Int
  avg_response_time : ℚ
  total_response_time : ℚ
deriving DecidableEq

/-- The mutable state of a `ConnectionManager` instance: `max_concurrent`,
the `connections` dict, the FIFO `connection_queue` (head = oldest entry),
and the `metrics` dict. -/
structure GState where
  max_concurrent : Nat
  connections : List (String × Connection)
  queue : List String
  metrics : Metrics
deriving DecidableEq

/-- Python `k in d` on the connections dict. -/
def dictMem (d : List (String × Connection)) (k : String) : Bool :=
  d.any (fun p => p.1 == k)

/-- Python `d.get(k)` / `d[k]` on the connections dict. -/
def dictGet (d : List (String × Connection)) (k : String) : Option Connection :=
  (d.find? (fun p => p.1 == k)).map Prod.snd

/-- Python `d[k] = v`: overwrite the existing key or append a new one. -/
def dictSet (d : List (String × Connection)) (k : String) (v : Connection) :
    List (String × Connection) :=
  if dictMem d k then d.map (fun p => if p.1 == k then (k, v) else p)
  else d ++ [(k, v)]

/-- Python `del d[k]` on a dict with unique keys. -/
def dictDel (d : List (String × Connection)) (k : String) :
    List (String × Connection) :=
  d.filter (fun p => p.1 != k)

/-- `ConnectionManager._initialize_metrics` (src/app.py lines 36-44). -/
def initMetrics : Metrics :=
  { total_requests := 0
    active_connections := 0
    queued_connections := 0
    rejected_connections := 0
    avg_response_time := 0
    total_response_time := 0 }

/-- `ConnectionManager.__init__(max_concurrent)` (src/app.py lines 29-34). -/
def initState (n : Nat) : GState :=
  { max_concurrent := n, connections := [], queue := [], metrics := initMetrics }

/-- The `Connection(...)` record built at src/app.py lines 61-71. -/
def mkConnection (cid : String) (req : ReqInfo) (now : ℚ) : Connection :=
  { id := cid
    client_ip := req.client_ip
    start_time := now
    endpoint := req.endpoint
    method := req.method
    user_agent := req.user_agent
    request_id := req.request_id
    headers := req.headers
    rate_limit_remaining := 100 }

/-- `ConnectionManager.start_connection(timeout)` (src/app.py lines 46-75).
`cid` is the fresh `str(uuid.uuid4())`, `now` is `time.time()`, `req` the
Flask request data.  When the registry is full the id is `put` on the
unbounded queue — this always succeeds at once, whatever `timeout` says,
so `queue.Full` is never raised, the `except` branch (lines 56-58) is dead
and control falls through to lines 61-75: the connection is created and
inserted into the registry regardless, and the id is returned.  The second
component of the result is the Python return value (`Optional[str]`). -/
def startConnection (s : GState) (cid : String) (req : ReqInfo) (now : ℚ)
    (timeout : ℚ) : GState × Option String :=
  let s1 : GState :=
    if s.connections.length ≥ s.max_concurrent then
      { s with
        queue := s.queue ++ [cid]
        metrics := { s.metrics with
          queued_connections := s.metrics.queued_connections + 1 } }
    else s
  let conns := dictSet s1.connections cid (mkConnection cid req now)
  ({ s1 with
      connections := conns
      metrics := { s1.metrics with
        total_requests := s1.metrics.total_requests + 1
        active_connections := (conns.length : Int) } },
    some cid)

/-- `ConnectionManager.end_connection(conn_id)` (src/app.py lines 77-97).
If `cid` is not registered the call does nothing.  Otherwise the metrics
are updated, the connection is deleted, and the queue is polled with
`get_nowait`: on `queue.Empty` the call updates `active_connections` and
returns; on success it decrements `queued_connections` and then calls
`self.start_connection(queued_conn_id)` — the dequeued token in the
`timeout` parameter position — which blocks forever re-acquiring the
non-re-entrant `self.lock` this call already holds.  Result: the final
shared state, and `none` for a normal return or `some t` when the nested
call with argument `t` was reached (the call never returns). -/
def endConnection (s : GState) (cid : String) (now : ℚ) :
    GState × Option String :=
  match dictGet s.connections cid with
  | none => (s, none)
  | some conn =>
    let duration := now - conn.start_time
    let trt := s.metrics.total_response_time + duration
    let avg := trt / (s.metrics.total_requests : ℚ)
    let conns := dictDel s.connections cid
    match s.queue with
    | [] =>
      ({ s with
          connections := conns
          metrics := { s.metrics with
            total_response_time := trt
            avg_response_time := avg
            active_connections := (conns.length : Int) } },
        none)
    | w :: rest =>
      ({ s with
          connections := conns
          queue := rest
          metrics := { s.metrics with
            total_response_time := trt
            avg_response_time := avg
            queued_connections := s.metrics.queued_connections - 1 } },
        some w)

/-- The states of a `ConnectionManager(max_concurrent = n)` reachable by
any sequence of `start_connection` / `end_connection` calls, with any
generated ids, request data and clock values.  A state produced by an
`end_connection` that reached the blocking nested call is included: it is
the shared memory content at the moment that thread blocks. -/
inductive Reachable (n : Nat) : GState → Prop where
  | init : Reachable n (initState n)
  | start (s : GState) (cid : String) (req : ReqInfo) (now timeout : ℚ) :
      Reachable n s → Reachable n (startConnection s cid req now timeout).1
  | stop (s : GState) (cid : String) (now : ℚ) :
      Reachable n s → Reachable n (endConnection s cid now).1

/-- Fixed sample request data used in concrete traces. -/
def sampleReq : ReqInfo :=
  { client_ip := "127.0.0.1"
    endpoint := "/proxy/x"
    method := "GET"
    user_agent := "ua"
    request_id := "rid"
    headers := [] }

/-- `ConnectionManager(max_concurrent=1)` after one `start_connection`:
the registry holds one connection, so it is full. -/
def sFull : GState := (startConnection (initState 1) "a" sampleReq 0 30).1

/-- `sFull` after a second `start_connection` (id `"b"`, `timeout=0`):
the full-registry branch runs, then control falls through and admits
`"b"` anyway. -/
def sOver : GState := (startConnection sFull "b" sampleReq 0 0).1

/-- `ConnectionManager(max_concurrent=2)` after admitting `"a"` at time
0, releasing it at time 2 (duration 2), and then admitting `"b"`:
`avg_response_time` keeps the value 2 computed at the release, while
`total_response_time / total_requests` is now `2 / 2 = 1`. -/
def c8a : GState := (startConnection (initState 2) "a" sampleReq 0 30).1

/-- `c8a` after `end_connection("a")` at time 2. -/
def c8b : GState := (endConnection c8a "a" 2).1

/-- `c8b` after admitting `"b"` at time 2. -/
def c8c : GState := (startConnection c8b "b" sampleReq 2 30).1

/-- `c8a` after admitting `"b"` at time 0 (two admitted connections). -/
def c8two1 : GState := (startConnection c8a "b" sampleReq 0 30).1

/-- `c8two1` after releasing `"a"` at time 1 (duration 1). -/
def c8two2 : GState := (endConnection c8two1 "a" 1).1

/-- `c8two2` after releasing `"b"` at time 3 (duration 3). -/
def c8two3 : GState := (endConnection c8two2 "b" 3).1

/-- Looking a key up after `del` finds nothing: `dictDel` removes every
pair carrying that key. -/
theorem dictGet_dictDel (d : List (String × Connection)) (k : String) :
    dictGet (dictDel d k) k = none := by
  induction d with
  | nil => rfl
  | cons p t ih =>
    by_cases h : p.1 = k
    · simpa [dictDel, List.filter_cons, h] using ih
    · simp [dictDel, dictGet, List.filter_cons, List.find?, h]

/-- Neither branch of `start_connection` touches `rejected_connections`
(the `except queue.Full` branch at lines 56-58 is dead). -/
theorem rejected_startConnection (s : GState) (cid : String) (req : ReqInfo)
    (now t : ℚ) :
    (startConnection s cid req now t).1.metrics.rejected_connections
      = s.metrics.rejected_connections := by
  simp only [startConnection]
  by_cases h : s.connections.length ≥ s.max_concurrent <;> simp [h]

/-- No branch of `end_connection` touches `rejected_connections`. -/
theorem rejected_endConnection (s : GState) (cid : String) (now : ℚ) :
    (endConnection s cid now).1.metrics.rejected_connections
      = s.metrics.rejected_connections := by
  unfold endConnection
  cases hg : dictGet s.connections cid with
  | none => rfl
  | some conn => cases hq : s.queue <;> simp

/-- C1: the claim states that in every reachable state the number of
admitted connections, and `active_connections`, is at most
`max_concurrent`.  The code refutes it: with `max_concurrent = 1`, the
second `start_connection` call finds the registry full, enqueues its id,
but then falls through (lines 61-75) and inserts the connection anyway,
so the reachable state `sOver` has two admitted connections and
`active_connections = 2 > 1 = max_concurrent`. -/
theorem C1_registry_exceeds_max_concurrent :
    Reachable 1 sOver ∧ sOver.max_concurrent = 1 ∧
    sOver.connections.length = 2 ∧ sOver.metrics.active_connections = 2 := by
  refine ⟨?_, by decide, by decide, by decide⟩
  exact Reachable.start sFull "b" sampleReq 0 0
    (Reachable.start (initState 1) "a" sampleReq 0 30 Reachable.init)

/-- C2: the claim states that promotion on release is a direct hand-off
that never re-invokes the full `acquire` path and never passes the
promoted waiter's token where a timeout parameter is expected.  The code
refutes it: releasing `"a"` in state `sOver` (whose wait queue holds
`"b"`) reaches line 93, `self.start_connection(queued_conn_id)` — i.e.
the embedded call's second component is `some "b"`, recording that the
full admission path was re-invoked with the dequeued token `"b"` in the
`timeout` parameter position. -/
theorem C2_promotion_reinvokes_admission_with_token_as_timeout :
    sOver.queue = ["b"] ∧ (endConnection sOver "a" 1).2 = some "b" := by
  constructor <;> decide

/-- C3: the claim states that `release` terminates without suspending for
every token and every state, even with a non-empty wait queue.  The code
refutes it: releasing `"a"` in state `sOver` (queue `["b"]`) reaches the
nested `start_connection` call (second component `isSome`), which blocks
forever re-acquiring the non-re-entrant `self.lock`; the frozen state
still shows `active_connections = 2` although only one connection remains
registered, because line 97 is never reached. -/
theorem C3_release_suspends_on_nonempty_queue :
    ((endConnection sOver "a" 4).2).isSome = true ∧
    (endConnection sOver "a" 4).1.connections.length = 1 ∧
    (endConnection sOver "a" 4).1.metrics.active_connections = 2 := by
  refine ⟨?_, ?_, ?_⟩ <;> decide

/-- C4: the claim states that with the registry full, `acquire` with
`timeout = 0` returns Rejected, increments `rejected_connections`,
leaves `queued_connections` at 0 and inserts nothing.  The code refutes
it: `sFull` is full (`1 = max_concurrent`), yet `start_connection` with
`timeout = 0` `put`s the id on the unbounded queue (which ignores the
timeout and never raises `queue.Full`), sets `queued_connections` to 1,
inserts the connection and returns the token — `rejected_connections`
stays 0. -/
theorem C4_zero_timeout_grants_instead_of_rejecting :
    sFull.connections.length = sFull.max_concurrent ∧
    (startConnection sFull "b" sampleReq 0 0).2 = some "b" ∧
    sOver.metrics.rejected_connections = 0 ∧
    sOver.metrics.queued_connections = 1 ∧
    dictMem sOver.connections "b" = true := by
  refine ⟨?_, ?_, ?_, ?_, ?_⟩ <;> decide

/-- C5: the claim states that no token is ever simultaneously in the
registry and in the wait queue.  The code refutes it: in the reachable
state `sOver` the token `"b"` was `put` on the queue and then inserted
into the registry by the same `start_connection` call. -/
theorem C5_token_in_registry_and_queue_simultaneously :
    Reachable 1 sOver ∧ sOver.queue.contains "b" = true ∧
    dictMem sOver.connections "b" = true := by
  refine ⟨?_, by decide, by decide⟩
  exact Reachable.start sFull "b" sampleReq 0 0
    (Reachable.start (initState 1) "a" sampleReq 0 30 Reachable.init)

/-- `end_connection` on an unregistered token takes the missing-key
branch: the state is untouched and the call returns normally. -/
theorem endConnection_eq_none (s : GState) (cid : String) (now : ℚ)
    (h : dictGet s.connections cid = none) :
    endConnection s cid now = (s, none) := by
  unfold endConnection
  rw [h]

/-- `end_connection` on a registered token deletes it from the registry,
whatever the queue holds. -/
theorem endConnection_fst_connections (s : GState) (cid : String) (now : ℚ)
    (conn : Connection) (h : dictGet s.connections cid = some conn) :
    (endConnection s cid now).1.connections = dictDel s.connections cid := by
  unfold endConnection
  rw [h]
  cases hq : s.queue <;> rfl

/-- `end_connection` on a registered token adds the measured duration to
`total_response_time`, whatever the queue holds. -/
theorem endConnection_fst_trt (s : GState) (cid : String) (now : ℚ)
    (conn : Connection) (h : dictGet s.connections cid = some conn) :
    (endConnection s cid now).1.metrics.total_response_time
      = s.metrics.total_response_time + (now - conn.start_time) := by
  unfold endConnection
  rw [h]
  cases hq : s.queue <;> rfl

/-- `end_connection` on a registered token recomputes
`avg_response_time` as the new `total_response_time` over
`total_requests`, whatever the queue holds. -/
theorem endConnection_fst_avg (s : GState) (cid : String) (now : ℚ)
    (conn : Connection) (h : dictGet s.connections cid = some conn) :
    (endConnection s cid now).1.metrics.avg_response_time
      = (s.metrics.total_response_time + (now - conn.start_time))
          / (s.metrics.total_requests : ℚ) := by
  unfold endConnection
  rw [h]
  cases hq : s.queue <;> rfl

/-- C6: `release` is idempotent.  Releasing a token absent from the
registry (in particular, releasing the same token a second time) leaves
the whole state — registry, queue and every metric — unchanged, returns
normally and raises no error; the first release of a registered token
removes its connection and updates `total_response_time` and
`avg_response_time` with the measured duration. -/
theorem C6_release_idempotent (s : GState) (cid : String) (now now2 : ℚ) :
    (dictGet s.connections cid = none → endConnection s cid now = (s, none)) ∧
    ∀ conn, dictGet s.connections cid = some conn →
      dictGet (endConnection s cid now).1.connections cid = none ∧
      (endConnection s cid now).1.metrics.total_response_time
        = s.metrics.total_response_time + (now - conn.start_time) ∧
      (endConnection s cid now).1.metrics.avg_response_time
        = (s.metrics.total_response_time + (now - conn.start_time))
            / (s.metrics.total_requests : ℚ) ∧
      endConnection (endConnection s cid now).1 cid now2
        = ((endConnection s cid now).1, none) := by
  constructor
  · exact fun h => endConnection_eq_none s cid now h
  · intro conn h
    refine ⟨?_, endConnection_fst_trt s cid now conn h,
      endConnection_fst_avg s cid now conn h, ?_⟩
    · rw [endConnection_fst_connections s cid now conn h]
      exact dictGet_dictDel _ _
    · apply endConnection_eq_none
      rw [endConnection_fst_connections s cid now conn h]
      exact dictGet_dictDel _ _

/-- C6 witness: concrete instance on the one-connection state `sFull` —
the registered token `"a"` is removed with its duration accounted, and
the second release of `"a"` is a no-op. -/
theorem C6_release_idempotent_witness :
    dictGet sFull.connections "a" = some (mkConnection "a" sampleReq 0) ∧
    dictGet (endConnection sFull "a" 5).1.connections "a" = none ∧
    (endConnection sFull "a" 5).1.metrics.total_response_time
      = sFull.metrics.total_response_time
        + (5 - (mkConnection "a" sampleReq 0).start_time) ∧
    endConnection (endConnection sFull "a" 5).1 "a" 7
      = ((endConnection sFull "a" 5).1, none) := by
  have h : dictGet sFull.connections "a" = some (mkConnection "a" sampleReq 0) := by
    decide
  obtain ⟨h1, h2, _, h4⟩ :=
    (C6_release_idempotent sFull "a" 5 7).2 (mkConnection "a" sampleReq 0) h
  exact ⟨h, h1, h2, h4⟩

/-- C7: the claim states that a waiter whose deadline has elapsed (or was
cancelled) is removed from the wait queue and never promoted by a later
release.  The code refutes it: the `timeout` argument of
`start_connection` only reaches the unbounded queue's `put`, which
ignores it, so the call's behaviour is entirely independent of `timeout`
— no deadline is ever recorded and no code path removes a queue entry on
timeout.  Concretely, the `"b"` entry enqueued with `timeout = 0` in
`sOver` is still in the queue long after (state is time-independent), and
the release of `"a"` at time 9 dequeues exactly that stale entry and
feeds it to the promotion call. -/
theorem C7_timed_out_waiter_still_promoted :
    (∀ (s : GState) (cid : String) (req : ReqInfo) (now t t' : ℚ),
      startConnection s cid req now t = startConnection s cid req now t') ∧
    sOver.queue = ["b"] ∧
    (endConnection sOver "a" 9).2 = some "b" ∧
    (endConnection sOver "a" 9).1.queue = [] := by
  refine ⟨fun s cid req now t t' => rfl, by decide, by decide, by decide⟩

/-- `end_connection` on a registered token never changes
`total_requests`. -/
theorem endConnection_fst_treq (s : GState) (cid : String) (now : ℚ)
    (conn : Connection) (h : dictGet s.connections cid = some conn) :
    (endConnection s cid now).1.metrics.total_requests
      = s.metrics.total_requests := by
  unfold endConnection
  rw [h]
  cases hq : s.queue <;> rfl

/-- `start_connection` never changes `avg_response_time`. -/
theorem startConnection_fst_avg (s : GState) (cid : String) (req : ReqInfo)
    (now t : ℚ) :
    (startConnection s cid req now t).1.metrics.avg_response_time
      = s.metrics.avg_response_time := by
  simp only [startConnection]
  by_cases h : s.connections.length ≥ s.max_concurrent <;> simp [h]

/-- `start_connection` never changes `total_response_time`. -/
theorem startConnection_fst_trt (s : GState) (cid : String) (req : ReqInfo)
    (now t : ℚ) :
    (startConnection s cid req now t).1.metrics.total_response_time
      = s.metrics.total_response_time := by
  simp only [startConnection]
  by_cases h : s.connections.length ≥ s.max_concurrent <;> simp [h]

/-- C8 counterexample: the claim states `avgResponseTime` equals
`totalResponseTime / totalRequests` (0 when `totalRequests` is 0).  The
code stores `avg_response_time` and recomputes it only inside
`end_connection`, so the equality breaks as soon as a later
`start_connection` increments `total_requests`: in the reachable state
`c8c` the stored average is 2 while the quotient is 1. -/
theorem C8_avg_stale_after_admission :
    Reachable 2 c8c ∧
    c8c.metrics.avg_response_time = 2 ∧
    c8c.metrics.total_response_time / (c8c.metrics.total_requests : ℚ) = 1 ∧
    c8c.metrics.avg_response_time
      ≠ c8c.metrics.total_response_time / (c8c.metrics.total_requests : ℚ) := by
  have h1 : dictGet c8a.connections "a" = some (mkConnection "a" sampleReq 0) := by
    decide
  have htrtA : c8a.metrics.total_response_time = 0 := rfl
  have htreqA : c8a.metrics.total_requests = 1 := rfl
  have hb : c8b.metrics.avg_response_time = 2 := by
    show (endConnection c8a "a" 2).1.metrics.avg_response_time = 2
    rw [endConnection_fst_avg c8a "a" 2 _ h1, htrtA, htreqA]
    norm_num [mkConnection]
  have hc : c8c.metrics.avg_response_time = 2 := by
    show (startConnection c8b "b" sampleReq 2 30).1.metrics.avg_response_time = 2
    rw [startConnection_fst_avg]
    exact hb
  have htrtC : c8c.metrics.total_response_time = 2 := by
    show (startConnection c8b "b" sampleReq 2 30).1.metrics.total_response_time = 2
    rw [startConnection_fst_trt]
    show (endConnection c8a "a" 2).1.metrics.total_response_time = 2
    rw [endConnection_fst_trt c8a "a" 2 _ h1, htrtA]
    norm_num [mkConnection]
  have htreqC : c8c.metrics.total_requests = 2 := by decide
  refine ⟨?_, hc, ?_, ?_⟩
  · exact Reachable.start c8b "b" sampleReq 2 30
      (Reachable.stop c8a "a" 2
        (Reachable.start (initState 2) "a" sampleReq 0 30 Reachable.init))
  · rw [htrtC, htreqC]
    norm_num
  · rw [hc, htrtC, htreqC]
    norm_num

/-- After the two releases with durations 1 and 3, the stored average is
`(1 + 3) / 2 = 2`. -/
theorem c8two3_avg : c8two3.metrics.avg_response_time = 2 := by
  have e1 : dictGet c8two1.connections "a" = some (mkConnection "a" sampleReq 0) := by
    decide
  have e2 : dictGet c8two2.connections "b" = some (mkConnection "b" sampleReq 0) := by
    decide
  have htrt1 : c8two1.metrics.total_response_time = 0 := rfl
  have htrt2 : c8two2.metrics.total_response_time = 1 := by
    show (endConnection c8two1 "a" 1).1.metrics.total_response_time = 1
    rw [endConnection_fst_trt c8two1 "a" 1 _ e1, htrt1]
    norm_num [mkConnection]
  have htreq2 : c8two2.metrics.total_requests = 2 := by decide
  show (endConnection c8two2 "b" 3).1.metrics.avg_response_time = 2
  rw [endConnection_fst_avg c8two2 "b" 3 _ e2, htrt2, htreq2]
  norm_num [mkConnection]

/-- C8 amended: `avg_response_time` is 0 initially (where
`total_requests` is 0), and immediately after every release of a
registered token it equals `total_response_time / total_requests`; in
particular, after two connections admitted and released with durations
1 and 3 time-units the metrics report `avg_response_time = 2`.  Between
a later admission and the next release it merely retains the value
computed at the last release (see the counterexample). -/
theorem C8_avg_recomputed_at_release (n : Nat) (s : GState) (cid : String)
    (now : ℚ) (conn : Connection)
    (h : dictGet s.connections cid = some conn) :
    (initState n).metrics.avg_response_time = 0 ∧
    (initState n).metrics.total_requests = 0 ∧
    (endConnection s cid now).1.metrics.avg_response_time
      = (endConnection s cid now).1.metrics.total_response_time
          / ((endConnection s cid now).1.metrics.total_requests : ℚ) ∧
    c8two3.metrics.avg_response_time = 2 := by
  refine ⟨rfl, rfl, ?_, c8two3_avg⟩
  rw [endConnection_fst_avg s cid now conn h,
    endConnection_fst_trt s cid now conn h,
    endConnection_fst_treq s cid now conn h]

/-- C8 witness: the amended statement instantiated on the concrete state
`sFull`, releasing its registered token `"a"` at time 5. -/
theorem C8_avg_recomputed_at_release_witness :
    dictGet sFull.connections "a" = some (mkConnection "a" sampleReq 0) ∧
    ((initState 7).metrics.avg_response_time = 0 ∧
     (initState 7).metrics.total_requests = 0 ∧
     (endConnection sFull "a" 5).1.metrics.avg_response_time
       = (endConnection sFull "a" 5).1.metrics.total_response_time
           / ((endConnection sFull "a" 5).1.metrics.total_requests : ℚ) ∧
     c8two3.metrics.avg_response_time = 2) := by
  have h : dictGet sFull.connections "a" = some (mkConnection "a" sampleReq 0) := by
    decide
  exact ⟨h, C8_avg_recomputed_at_release 7 sFull "a" 5 (mkConnection "a" sampleReq 0) h⟩

/-- C9: the wait queue is FIFO.  `start_connection` enqueues at the tail
(and only when the registry is full), and the `get_nowait` performed by
`end_connection` dequeues the head — the oldest waiter — handing exactly
that token to the promotion call.  Hence waiters are dequeued for
promotion in their enqueue order. -/
theorem C9_fifo_promotion_order :
    (∀ (s : GState) (cid : String) (req : ReqInfo) (now t : ℚ),
      s.connections.length ≥ s.max_concurrent →
        (startConnection s cid req now t).1.queue = s.queue ++ [cid]) ∧
    (∀ (s : GState) (cid : String) (req : ReqInfo) (now t : ℚ),
      s.connections.length < s.max_concurrent →
        (startConnection s cid req now t).1.queue = s.queue) ∧
    (∀ (s : GState) (cid w : String) (rest : List String) (now : ℚ)
      (conn : Connection), s.queue = w :: rest →
        dictGet s.connections cid = some conn →
        (endConnection s cid now).2 = some w ∧
        (endConnection s cid now).1.queue = rest) := by
  refine ⟨?_, ?_, ?_⟩
  · intro s cid req now t h
    simp [startConnection, h]
  · intro s cid req now t h
    have h' : ¬ s.connections.length ≥ s.max_concurrent := by omega
    simp [startConnection, h']
  · intro s cid w rest now conn hq h
    unfold endConnection
    rw [h, hq]
    exact ⟨rfl, rfl⟩

/-- C9 witness: on the full state `sFull` a new id `"b"` goes to the tail
of the queue; on the non-full initial state nothing is enqueued; and
releasing `"a"` in `sOver` dequeues the oldest waiter `"b"`. -/
theorem C9_fifo_promotion_order_witness :
    (startConnection sFull "b" sampleReq 0 30).1.queue = sFull.queue ++ ["b"] ∧
    (startConnection (initState 3) "a" sampleReq 0 30).1.queue
      = (initState 3).queue ∧
    (endConnection sOver "a" 2).2 = some "b" ∧
    (endConnection sOver "a" 2).1.queue = [] := by
  obtain ⟨h1, h2, h3⟩ := C9_fifo_promotion_order
  obtain ⟨h4, h5⟩ := h3 sOver "a" "b" [] 2 (mkConnection "a" sampleReq 0)
    (by decide) (by decide)
  exact ⟨h1 sFull "b" sampleReq 0 30 (by decide),
    h2 (initState 3) "a" sampleReq 0 30 (by decide), h4, h5⟩

/-- C10: the rejection branch of `start_connection` is dead code.  The
wait queue is created unbounded, so `put` never raises `queue.Full`: in
every reachable state `start_connection` returns the generated token
(never `None`) and `rejected_connections` is still 0. -/
theorem C10_rejection_branch_unreachable (n : Nat) (s : GState)
    (cid : String) (req : ReqInfo) (now t : ℚ) (h : Reachable n s) :
    (startConnection s cid req now t).2 = some cid ∧
    s.metrics.rejected_connections = 0 := by
  refine ⟨rfl, ?_⟩
  induction h with
  | init => rfl
  | start s' cid' req' now' t' _ ih =>
    rw [rejected_startConnection]
    exact ih
  | stop s' cid' now' _ ih =>
    rw [rejected_endConnection]
    exact ih

/-- C10 witness: instantiated at the initial state of a
`ConnectionManager(max_concurrent=5)`. -/
theorem C10_rejection_branch_unreachable_witness :
    (startConnection (initState 5) "a" sampleReq 0 30).2 = some "a" ∧
    (initState 5).metrics.rejected_connections = 0 :=
  C10_rejection_branch_unreachable 5 (initState 5) "a" sampleReq 0 30
    Reachable.init
